import Mathlib

/-!
Shallow embedding of `src/main.py` of the Translito speech-to-speech
translation pipeline, and proofs about it.

The program is a single-file Streamlit app.  Its pure logic — the
encryption wrappers of `BasicSecurity`, the language tables, the
pipeline stage functions `secure_transcribe_audio`,
`secure_translate_text`, `secure_enhance_medical_terms`,
`secure_text_to_speech`, and the recording-session state updates in
`main` — is translated here definition by definition.  External
services (Fernet, Whisper, GoogleTranslator, the Groq completion
endpoint, gTTS, langdetect) are modelled as explicit parameters; an
exception raised by a service call is modelled as an `Option` returning
`none`; Python falsiness of a decrypted string (`if not decrypted_text`)
is modelled by the explicit test against the empty string.
-/

namespace Translito

/-- Model of a Fernet ciphertext (the `cryptography.fernet` library used
by `BasicSecurity`, src/main.py lines 27-46).  Fernet is authenticated
symmetric encryption: `encrypt` under a key yields a token; `decrypt`
of a token succeeds and returns the original plaintext exactly when the
same key is used, and raises (`none` here) on a token of a foreign key
or on a string that is not a well-formed token at all. -/
inductive Ciphertext where
  | token (key : Nat) (plaintext : String)
  | malformed (raw : String)
  deriving DecidableEq

/-- `self.cipher_suite.encrypt(text.encode()).decode()` — the Fernet
primitive under the process key. -/
def fernet_encrypt (key : Nat) (text : String) : Ciphertext :=
  Ciphertext.token key text

/-- `self.cipher_suite.decrypt(encrypted_text.encode()).decode()` — the
Fernet primitive; `none` models the `InvalidToken` exception raised on a
malformed token or on a token produced under a different key. -/
def fernet_decrypt (key : Nat) (c : Ciphertext) : Option String :=
  match c with
  | Ciphertext.token k p => if k = key then some p else none
  | Ciphertext.malformed _ => none

/-- `BasicSecurity.encrypt_text` (src/main.py lines 33-37) on a string
input: the `isinstance(text, str)` guard holds for every input of this
embedding, so the function encrypts under the process key. -/
def encrypt_text (key : Nat) (text : String) : Ciphertext :=
  fernet_encrypt key text

/-- `BasicSecurity.decrypt_text` (src/main.py lines 39-46) on a string
input: the Fernet call is wrapped in `try/except` returning `None`, so
the result is the decrypted plaintext or the `None` sentinel, and the
function never raises. -/
def decrypt_text (key : Nat) (encrypted_text : Ciphertext) : Option String :=
  fernet_decrypt key encrypted_text

/-- `get_language_code_mapping` (src/main.py lines 55-94): the static
ISO-639-1-code-to-language-name table, in source order.  The Python dict
literal repeats the key `is` with the same value `Icelandic`; the
association list keeps both occurrences, and first-match lookup agrees
with the dict on every key. -/
def get_language_code_mapping : List (String × String) :=
  [("en", "English"), ("es", "Spanish"), ("fr", "French"),
   ("de", "German"), ("it", "Italian"), ("pt", "Portuguese"),
   ("zh-cn", "Chinese (Simplified)"), ("zh-tw", "Chinese (Traditional)"),
   ("ja", "Japanese"), ("ko", "Korean"), ("hi", "Hindi"),
   ("ar", "Arabic"), ("ru", "Russian"), ("bn", "Bengali"),
   ("id", "Indonesian"), ("tr", "Turkish"), ("vi", "Vietnamese"),
   ("nl", "Dutch"), ("el", "Greek"), ("he", "Hebrew"),
   ("sv", "Swedish"), ("no", "Norwegian"), ("da", "Danish"),
   ("pl", "Polish"), ("cs", "Czech"), ("hu", "Hungarian"),
   ("fi", "Finnish"), ("th", "Thai"), ("fil", "Filipino"),
   ("ms", "Malay"), ("ur", "Urdu"), ("ta", "Tamil"),
   ("te", "Telugu"), ("mr", "Marathi"), ("pa", "Punjabi"),
   ("gu", "Gujarati"), ("uk", "Ukrainian"), ("ro", "Romanian"),
   ("bg", "Bulgarian"), ("sr", "Serbian"), ("hr", "Croatian"),
   ("sk", "Slovak"), ("sl", "Slovenian"), ("lt", "Lithuanian"),
   ("lv", "Latvian"), ("et", "Estonian"), ("is", "Icelandic"),
   ("af", "Afrikaans"), ("sq", "Albanian"), ("am", "Amharic"),
   ("hy", "Armenian"), ("az", "Azerbaijani"), ("eu", "Basque"),
   ("be", "Belarusian"), ("bs", "Bosnian"), ("ca", "Catalan"),
   ("ceb", "Cebuano"), ("co", "Corsican"), ("eo", "Esperanto"),
   ("fy", "Frisian"), ("gl", "Galician"), ("ka", "Georgian"),
   ("ht", "Haitian Creole"), ("ha", "Hausa"), ("haw", "Hawaiian"),
   ("hmn", "Hmong"), ("is", "Icelandic"), ("ig", "Igbo"),
   ("ga", "Irish"), ("jw", "Javanese"), ("kn", "Kannada"),
   ("kk", "Kazakh"), ("km", "Khmer"), ("rw", "Kinyarwanda"),
   ("ku", "Kurdish"), ("ky", "Kyrgyz"), ("lo", "Lao"),
   ("la", "Latin"), ("lb", "Luxembourgish"), ("mk", "Macedonian"),
   ("mg", "Malagasy"), ("ml", "Malayalam"), ("mt", "Maltese"),
   ("mi", "Maori"), ("mn", "Mongolian"), ("my", "Myanmar (Burmese)"),
   ("ne", "Nepali"), ("ny", "Nyanja (Chichewa)"), ("or", "Odia (Oriya)"),
   ("ps", "Pashto"), ("fa", "Persian"), ("sm", "Samoan"),
   ("gd", "Scots Gaelic"), ("st", "Sesotho"), ("sn", "Shona"),
   ("sd", "Sindhi"), ("si", "Sinhala (Sinhalese)"), ("so", "Somali"),
   ("su", "Sundanese"), ("sw", "Swahili"), ("tl", "Tagalog (Filipino)"),
   ("tg", "Tajik"), ("tt", "Tatar"), ("tk", "Turkmen"),
   ("ug", "Uyghur"), ("uz", "Uzbek"), ("cy", "Welsh"),
   ("xh", "Xhosa"), ("yi", "Yiddish"), ("yo", "Yoruba"), ("zu", "Zulu")]

/-- `get_languages` (src/main.py lines 250-290): the static
display-name-to-code table, in source order.  The dict literal repeats
the key `Icelandic` with the same value `is`; see
`get_language_code_mapping`. -/
def get_languages : List (String × String) :=
  [("English", "en"), ("Spanish", "es"), ("French", "fr"),
   ("German", "de"), ("Italian", "it"), ("Portuguese", "pt"),
   ("Chinese (Simplified)", "zh-CN"), ("Chinese (Traditional)", "zh-TW"),
   ("Japanese", "ja"), ("Korean", "ko"), ("Hindi", "hi"),
   ("Arabic", "ar"), ("Russian", "ru"), ("Bengali", "bn"),
   ("Indonesian", "id"), ("Turkish", "tr"), ("Vietnamese", "vi"),
   ("Dutch", "nl"), ("Greek", "el"), ("Hebrew", "he"),
   ("Swedish", "sv"), ("Norwegian", "no"), ("Danish", "da"),
   ("Polish", "pl"), ("Czech", "cs"), ("Hungarian", "hu"),
   ("Finnish", "fi"), ("Thai", "th"), ("Filipino", "fil"),
   ("Malay", "ms"), ("Urdu", "ur"), ("Tamil", "ta"),
   ("Telugu", "te"), ("Marathi", "mr"), ("Punjabi", "pa"),
   ("Gujarati", "gu"), ("Ukrainian", "uk"), ("Romanian", "ro"),
   ("Bulgarian", "bg"), ("Serbian", "sr"), ("Croatian", "hr"),
   ("Slovak", "sk"), ("Slovenian", "sl"), ("Lithuanian", "lt"),
   ("Latvian", "lv"), ("Estonian", "et"), ("Icelandic", "is"),
   ("Afrikaans", "af"), ("Albanian", "sq"), ("Amharic", "am"),
   ("Armenian", "hy"), ("Azerbaijani", "az"), ("Basque", "eu"),
   ("Belarusian", "be"), ("Bosnian", "bs"), ("Catalan", "ca"),
   ("Cebuano", "ceb"), ("Corsican", "co"), ("Esperanto", "eo"),
   ("Frisian", "fy"), ("Galician", "gl"), ("Georgian", "ka"),
   ("Haitian Creole", "ht"), ("Hausa", "ha"), ("Hawaiian", "haw"),
   ("Hmong", "hmn"), ("Icelandic", "is"), ("Igbo", "ig"),
   ("Irish", "ga"), ("Javanese", "jw"), ("Kannada", "kn"),
   ("Kazakh", "kk"), ("Khmer", "km"), ("Kinyarwanda", "rw"),
   ("Kurdish", "ku"), ("Kyrgyz", "ky"), ("Lao", "lo"),
   ("Latin", "la"), ("Luxembourgish", "lb"), ("Macedonian", "mk"),
   ("Malagasy", "mg"), ("Malayalam", "ml"), ("Maltese", "mt"),
   ("Maori", "mi"), ("Mongolian", "mn"), ("Myanmar (Burmese)", "my"),
   ("Nepali", "ne"), ("Nyanja (Chichewa)", "ny"), ("Odia (Oriya)", "or"),
   ("Pashto", "ps"), ("Persian", "fa"), ("Samoan", "sm"),
   ("Scots Gaelic", "gd"), ("Sesotho", "st"), ("Shona", "sn"),
   ("Sindhi", "sd"), ("Sinhala (Sinhalese)", "si"), ("Somali", "so"),
   ("Sundanese", "su"), ("Swahili", "sw"), ("Tagalog (Filipino)", "tl"),
   ("Tajik", "tg"), ("Tatar", "tt"), ("Turkmen", "tk"),
   ("Uyghur", "ug"), ("Uzbek", "uz"), ("Welsh", "cy"),
   ("Xhosa", "xh"), ("Yiddish", "yi"), ("Yoruba", "yo"), ("Zulu", "zu")]

/-- Python `code.lower()` (src/main.py line 100), character-wise ASCII
lowercasing; language codes are ASCII, where this agrees with Python's
full-Unicode `str.lower()`. -/
def pyLower (s : String) : String :=
  String.mk (s.data.map Char.toLower)

/-- `get_language_name` (src/main.py lines 97-110): lowercase the code,
special-case `zh`, look the code up in the mapping, and fall back to the
code itself when it is unknown. -/
def get_language_name (code : String) : String :=
  let c := pyLower code
  if c = "zh" then "Chinese (Simplified)"
  else
    match get_language_code_mapping.lookup c with
    | some name => name
    | none => c

/-- Python truthiness of `A or B` for `A : Option String`: `A or B`
yields `B` when `A` is `None` or the empty string.  Used for
`languages.get(detected_lang_name) or detected_lang_code`
(src/main.py line 440). -/
def pyOr (a : Option String) (b : String) : String :=
  match a with
  | some v => if v = "" then b else v
  | none => b

/-- The Streamlit session state of the app (src/main.py lines 113-120):
`recording_state` is the Python string stored in
`st.session_state.recording_state` (the code only ever assigns
`"recording"` and `"stopped"`), `audio_bytes` the captured buffer,
`detected_language` the display name stored for the banner,
`auto_detect` the checkbox value. -/
structure Session where
  recording_state : String
  audio_bytes : Option (List Nat)
  detected_language : Option String
  auto_detect : Bool
  deriving DecidableEq

/-- The initial session state (src/main.py lines 113-120):
`recording_state = 'stopped'`, `audio_bytes = None`,
`detected_language = None`, `auto_detect = True`. -/
def initSession : Session :=
  { recording_state := "stopped", audio_bytes := none,
    detected_language := none, auto_detect := true }

/-- Guard of the Start Recording button (src/main.py line 387):
`disabled = (recording_state == 'recording')`. -/
def startEnabled (s : Session) : Bool :=
  !(s.recording_state == "recording")

/-- Guard of the Stop button (src/main.py line 396):
`disabled = (recording_state != 'recording')`. -/
def stopEnabled (s : Session) : Bool :=
  s.recording_state == "recording"

/-- Guard of the Reset button (src/main.py line 402):
`disabled = (recording_state == 'recording')`. -/
def resetEnabled (s : Session) : Bool :=
  !(s.recording_state == "recording")

/-- Effect of a click on Start Recording (src/main.py lines 388-390):
state becomes `'recording'`, `audio_bytes` and `detected_language` are
cleared. -/
def startTransition (s : Session) : Session :=
  { s with recording_state := "recording", audio_bytes := none,
           detected_language := none }

/-- Effect of a click on Stop (src/main.py line 397): state becomes
`'stopped'`; the other fields are untouched. -/
def stopTransition (s : Session) : Session :=
  { s with recording_state := "stopped" }

/-- Effect of a click on Reset (src/main.py lines 403-405): state
becomes `'stopped'`, `audio_bytes` and `detected_language` are
cleared. -/
def resetTransition (s : Session) : Session :=
  { s with recording_state := "stopped", audio_bytes := none,
           detected_language := none }

/-- While recording, the audio recorder widget may store a captured
buffer (src/main.py lines 408-414). -/
def recordAudio (s : Session) (b : List Nat) : Session :=
  { s with audio_bytes := some b }

/-- The auto-detect checkbox assignment (src/main.py line 376). -/
def setAutoDetect (s : Session) (b : Bool) : Session :=
  { s with auto_detect := b }

/-- The session states reachable from the initial state through the
app's own updates: the three buttons (each only when its guard is
enabled — Streamlit never fires a disabled button), the recorder
widget while recording, and the auto-detect checkbox. -/
inductive Reachable : Session → Prop
  | init : Reachable initSession
  | start (s : Session) : Reachable s → startEnabled s = true →
      Reachable (startTransition s)
  | stop (s : Session) : Reachable s → stopEnabled s = true →
      Reachable (stopTransition s)
  | reset (s : Session) : Reachable s → resetEnabled s = true →
      Reachable (resetTransition s)
  | record (s : Session) (b : List Nat) : Reachable s →
      s.recording_state = "recording" → Reachable (recordAudio s b)
  | checkbox (s : Session) (b : Bool) : Reachable s →
      Reachable (setAutoDetect s b)

/-- What the Whisper service returns on success (src/main.py lines
138-147): the transcript text and the language tag it detected, which
may be absent. -/
structure WhisperOut where
  text : String
  language : Option String
  deriving DecidableEq

/-- What `secure_transcribe_audio` returns on success (src/main.py
lines 144-147): the encrypted transcript and the detected language. -/
structure SecTranscription where
  text : Ciphertext
  language : Option String
  deriving DecidableEq

/-- Effect on the filesystem of `os.remove(audio_file)` wrapped in
`try/except: pass` (src/main.py lines 153-156): the path is gone
afterwards whether or not it existed (a raised `FileNotFoundError` is
swallowed). -/
def os_remove_quiet (fs : List String) (p : String) : List String :=
  fs.filter (fun q => q != p)

/-- `secure_transcribe_audio` (src/main.py lines 134-156).  The
filesystem is the list of existing paths; opening the file raises when
the path does not exist (caught, yielding `None`); `svc` is the Whisper
transcription call, `none` modelling a raised service error; the
`finally` block always runs `os.remove` wrapped in `try/except: pass`.
Returns the call's result together with the filesystem afterwards. -/
def secure_transcribe_audio (key : Nat) (svc : Option WhisperOut)
    (fs : List String) (audio_file : String) :
    Option SecTranscription × List String :=
  if fs.contains audio_file then
    match svc with
    | some t =>
        (some { text := encrypt_text key t.text, language := t.language },
         os_remove_quiet fs audio_file)
    | none => (none, os_remove_quiet fs audio_file)
  else
    (none, os_remove_quiet fs audio_file)

/-- `secure_translate_text` (src/main.py lines 165-187), instrumented
with the list of calls made to the translation service.  `svc source
target text` is `GoogleTranslator(source, target).translate(text)`,
`none` modelling a raised error.  The code decrypts, short-circuits to
`None` on a falsy plaintext (`if not decrypted_text`), calls the
service with the explicit source code, re-encrypts on success; on an
exception it retries once with source `'auto'` and returns `None` if
that also fails.  The second component records every
`(source, target, text)` triple sent to the service, in order. -/
def secure_translate_text (key : Nat)
    (svc : String → String → String → Option String)
    (encrypted_text : Ciphertext) (source_lang_code target_lang_code : String) :
    Option Ciphertext × List (String × String × String) :=
  match decrypt_text key encrypted_text with
  | none => (none, [])
  | some d =>
    if d = "" then (none, [])
    else
      match svc source_lang_code target_lang_code d with
      | some t =>
          (some (encrypt_text key t), [(source_lang_code, target_lang_code, d)])
      | none =>
        match svc "auto" target_lang_code d with
        | some t =>
            (some (encrypt_text key t),
             [(source_lang_code, target_lang_code, d),
              ("auto", target_lang_code, d)])
        | none =>
            (none,
             [(source_lang_code, target_lang_code, d),
              ("auto", target_lang_code, d)])

/-- The system prompt `secure_enhance_medical_terms` builds
(src/main.py lines 197-200). -/
def enhance_prompt (detected_lang : Option String) : String :=
  "You are a translation and transcription expert. " ++
  (match detected_lang with
   | some l => "The text is in " ++ l ++ ". "
   | none => "") ++
  "Correct and enhance any terminology in the following text while preserving the original meaning. Just translate what input you receive."

/-- `secure_enhance_medical_terms` (src/main.py lines 189-219).
`complete prompt text` is the chat-completion call, `none` modelling a
raised service error.  The code decrypts, returns `None` on a falsy
plaintext (`if not decrypted_text: return None` — this covers both a
failed decryption and an empty plaintext), re-encrypts the completion
on success, and on an exception returns the original
`encrypted_text`. -/
def secure_enhance_medical_terms (key : Nat)
    (complete : String → String → Option String)
    (encrypted_text : Ciphertext) (detected_lang : Option String) :
    Option Ciphertext :=
  match decrypt_text key encrypted_text with
  | none => none
  | some d =>
    if d = "" then none
    else
      match complete (enhance_prompt detected_lang) d with
      | some content => some (encrypt_text key content)
      | none => some encrypted_text

/-- The language-code normalization `secure_text_to_speech` applies
before calling gTTS (src/main.py lines 230-233). -/
def tts_normalize (lang_code : String) : String :=
  if lang_code = "zh-CN" then "zh-cn"
  else if lang_code = "zh-TW" then "zh-tw"
  else lang_code

/-- Observable outcome of one `secure_text_to_speech` call: the
returned audio-file handle (or `None`), the language the gTTS engine
was finally invoked with, and whether the non-fatal
`st.warning` fallback message was shown. -/
structure TTSRun where
  result : Option String
  lang_used : Option String
  warned : Bool
  deriving DecidableEq

/-- `secure_text_to_speech` (src/main.py lines 221-248).  `supported`
says which language codes the gTTS constructor accepts (it raises on an
unsupported code); `fname` is the fresh temporary-file name.  The code
decrypts, returns `None` on a falsy plaintext, normalizes the regional
Chinese codes, tries gTTS with the normalized code, and on failure
warns and retries with `'en'`; if even that constructor raises, the
outer handler returns `None`. -/
def secure_text_to_speech (key : Nat) (supported : String → Bool)
    (fname : String) (encrypted_text : Ciphertext) (lang_code : String) :
    TTSRun :=
  match decrypt_text key encrypted_text with
  | none => { result := none, lang_used := none, warned := false }
  | some d =>
    if d = "" then { result := none, lang_used := none, warned := false }
    else
      let lc := tts_normalize lang_code
      if supported lc then
        { result := some fname, lang_used := some lc, warned := false }
      else if supported "en" then
        { result := some fname, lang_used := some "en", warned := true }
      else
        { result := none, lang_used := none, warned := true }

/-- Everything the language-selection block of `main` (src/main.py
lines 427-443) computes: the source-language code handed to the
translation stage (`none` models a `KeyError` raised by
`languages[source_lang]`), the detected code handed to the enhancement
stage, the detected-language banner shown (`none` = no banner), and the
value of `st.session_state.detected_language` after the block. -/
structure LangStepOut where
  source_lang_code : Option String
  detected_lang_code : Option String
  banner : Option String
  session_detected : Option String
  deriving DecidableEq

/-- The language-selection block of `main` (src/main.py lines 427-443).
`whisper_lang` is `transcription_result.get("language")`; `guess` is
the `langdetect` fallback `detect_language(decrypted transcript)`
(computed only when `whisper_lang` is falsy; the transcript payload
itself is a non-empty Fernet token, hence truthy); `source_lang` is the
display name held by the Source Language selectbox; `prev_detected` is
`st.session_state.detected_language` before the block.  When a language
was detected and auto-detect is on, the banner is shown, the session
field is set, and the source code is
`languages.get(detected_lang_name) or detected_lang_code`; otherwise
the block falls through to `languages[source_lang]` and neither the
banner nor the session field is touched. -/
def pipeline_lang_step (auto_detect : Bool) (whisper_lang : Option String)
    (guess : Option String) (source_lang : String)
    (prev_detected : Option String) : LangStepOut :=
  let detected_lang_code :=
    match whisper_lang with
    | some l => some l
    | none => guess
  match detected_lang_code, auto_detect with
  | some code, true =>
    let name := get_language_name code
    { source_lang_code := some (pyOr (get_languages.lookup name) code),
      detected_lang_code := some code,
      banner := some name,
      session_detected := some name }
  | d, _ =>
    { source_lang_code := get_languages.lookup source_lang,
      detected_lang_code := d,
      banner := none,
      session_detected := prev_detected }

/-- The default value of the Source Language selectbox (src/main.py
line 371): `index=0` over `list(languages.keys())`. -/
def source_lang_default : Option String :=
  (get_languages.map Prod.fst).head?

/-- The `disabled` flag of the Source Language selectbox (src/main.py
line 372): `disabled=st.session_state.auto_detect`. -/
def source_selectbox_disabled (auto_detect : Bool) : Bool :=
  auto_detect

/-- Claim C1: for every printable-text string `x`, decrypting the
result of encrypting `x` with the same process-wide key returns `x`:
`decrypt_text (encrypt_text x) = x` (the decrypted plaintext, `some x`
in the `Option` model of the `None` sentinel). -/
theorem c1_decrypt_encrypt_roundtrip (key : Nat) (x : String) :
    decrypt_text key (encrypt_text key x) = some x := by
  simp [decrypt_text, encrypt_text, fernet_decrypt, fernet_encrypt]

/-- Claim C2: for every input that is malformed ciphertext or a token
encrypted under a foreign key, `decrypt_text` returns the `None`
sentinel; it never raises (the embedding is a total function whose
`try/except` is the `Option`). -/
theorem c2_decrypt_failure_sentinel (key : Nat) :
    (∀ raw, decrypt_text key (Ciphertext.malformed raw) = none) ∧
    (∀ k p, k ≠ key → decrypt_text key (Ciphertext.token k p) = none) := by
  refine ⟨fun raw => rfl, fun k p h => ?_⟩
  simp [decrypt_text, fernet_decrypt, h]

/-- Claim C2, witnessed at a concrete malformed string and a concrete
foreign-key token: decrypting `"garbage"` and a token of key 1 under
key 0 both return the sentinel. -/
theorem c2_decrypt_failure_sentinel_witness :
    decrypt_text 0 (Ciphertext.malformed "garbage") = none ∧
    decrypt_text 0 (Ciphertext.token 1 "secret") = none := by
  have h := c2_decrypt_failure_sentinel 0
  exact ⟨h.1 "garbage", h.2 1 "secret" (by decide)⟩

/-- Claim C3, counterexample: on a payload whose decryption fails
(here a malformed ciphertext), `secure_enhance_medical_terms` returns
`None`, not the original encrypted input — the claim says every
failure, decryption failure included, returns the original input
unchanged. -/
theorem c3_enhance_decrypt_failure_returns_none :
    decrypt_text 0 (Ciphertext.malformed "garbage") = none ∧
    secure_enhance_medical_terms 0 (fun _ _ => none)
      (Ciphertext.malformed "garbage") none = none ∧
    secure_enhance_medical_terms 0 (fun _ _ => none)
      (Ciphertext.malformed "garbage") none ≠
      some (Ciphertext.malformed "garbage") := by
  refine ⟨rfl, rfl, by decide⟩

/-- Claim C3 as amended: if decryption of the input fails (or the
plaintext is empty, which the code's falsiness test treats the same
way), `secure_enhance_medical_terms` returns `None`; if decryption
yields a non-empty plaintext and the completion service fails, it
returns the original encrypted input unchanged. -/
theorem c3_enhance_failure_policy (key : Nat)
    (complete : String → String → Option String) (enc : Ciphertext)
    (lang : Option String) :
    (decrypt_text key enc = none →
      secure_enhance_medical_terms key complete enc lang = none) ∧
    (decrypt_text key enc = some "" →
      secure_enhance_medical_terms key complete enc lang = none) ∧
    (∀ d, decrypt_text key enc = some d → d ≠ "" →
      complete (enhance_prompt lang) d = none →
      secure_enhance_medical_terms key complete enc lang = some enc) := by
  refine ⟨?_, ?_, ?_⟩
  · intro h
    simp [secure_enhance_medical_terms, h]
  · intro h
    simp [secure_enhance_medical_terms, h]
  · intro d hd hne hc
    simp [secure_enhance_medical_terms, hd, hne, hc]

/-- Claim C3 amended-theorem witness at concrete inputs: a malformed
payload enhances to `None`, a key-0 token of the empty string also
enhances to `None`, and a key-0 token whose completion call fails
comes back unchanged. -/
theorem c3_enhance_failure_policy_witness :
    secure_enhance_medical_terms 0 (fun _ _ => none)
      (Ciphertext.malformed "junk") none = none ∧
    secure_enhance_medical_terms 0 (fun _ _ => none)
      (Ciphertext.token 0 "") none = none ∧
    secure_enhance_medical_terms 0 (fun _ _ => none)
      (Ciphertext.token 0 "fever") (some "english") =
      some (Ciphertext.token 0 "fever") := by
  refine ⟨?_, ?_, ?_⟩
  · exact (c3_enhance_failure_policy 0 (fun _ _ => none)
      (Ciphertext.malformed "junk") none).1 rfl
  · exact (c3_enhance_failure_policy 0 (fun _ _ => none)
      (Ciphertext.token 0 "") none).2.1 rfl
  · exact (c3_enhance_failure_policy 0 (fun _ _ => none)
      (Ciphertext.token 0 "fever") (some "english")).2.2 "fever" rfl
      (by decide) rfl

/-- Helper for claim C8: the quiet `os.remove` leaves the filesystem
without the removed path. -/
theorem not_mem_os_remove_quiet (fs : List String) (p : String) :
    p ∉ os_remove_quiet fs p := by
  simp [os_remove_quiet]

/-- Claim C8: for every audio file handle passed to
`secure_transcribe_audio`, on every outcome — successful transcription
(`svc` returns a result), service failure (`svc` raises), or read
failure (the path does not exist) — the resulting filesystem is the
input filesystem with the handle removed, so the handle no longer
exists afterwards. -/
theorem c8_transcribe_always_deletes (key : Nat) (svc : Option WhisperOut)
    (fs : List String) (audio_file : String) :
    (secure_transcribe_audio key svc fs audio_file).2 =
      os_remove_quiet fs audio_file ∧
    audio_file ∉ (secure_transcribe_audio key svc fs audio_file).2 := by
  have h2 : (secure_transcribe_audio key svc fs audio_file).2 =
      os_remove_quiet fs audio_file := by
    unfold secure_transcribe_audio
    cases hc : fs.contains audio_file <;> cases svc <;> simp
  refine ⟨h2, ?_⟩
  rw [h2]
  exact not_mem_os_remove_quiet fs audio_file

/-- Claim C4: for every input to `secure_translate_text`: if decryption
of the payload fails, the result is `None` and the translation service
is not called (the call trace is empty); if the explicit-source call
fails, exactly one retry is made with source `'auto'` (the trace is
exactly the explicit call followed by the `'auto'` call), and if that
retry also fails the result is `None`; a successful explicit-source
call makes exactly one service call; and any successful result is the
re-encryption of some service output. -/
theorem c4_translate_failure_policy (key : Nat)
    (svc : String → String → String → Option String) (enc : Ciphertext)
    (src tgt : String) :
    (decrypt_text key enc = none →
      secure_translate_text key svc enc src tgt = (none, [])) ∧
    (∀ d, decrypt_text key enc = some d → d ≠ "" →
      (∀ t, svc src tgt d = some t →
        secure_translate_text key svc enc src tgt =
          (some (encrypt_text key t), [(src, tgt, d)])) ∧
      (svc src tgt d = none →
        (secure_translate_text key svc enc src tgt).2 =
          [(src, tgt, d), ("auto", tgt, d)] ∧
        (svc "auto" tgt d = none →
          (secure_translate_text key svc enc src tgt).1 = none) ∧
        (∀ t, svc "auto" tgt d = some t →
          (secure_translate_text key svc enc src tgt).1 =
            some (encrypt_text key t)))) ∧
    (∀ c, (secure_translate_text key svc enc src tgt).1 = some c →
      ∃ t, c = encrypt_text key t) := by
  refine ⟨?_, ?_, ?_⟩
  · intro h
    simp [secure_translate_text, h]
  · intro d hd hne
    constructor
    · intro t ht
      simp [secure_translate_text, hd, hne, ht]
    · intro h1
      refine ⟨?_, ?_, ?_⟩
      · cases h2 : svc "auto" tgt d <;>
          simp [secure_translate_text, hd, hne, h1, h2]
      · intro h2
        simp [secure_translate_text, hd, hne, h1, h2]
      · intro t h2
        simp [secure_translate_text, hd, hne, h1, h2]
  · intro c hc
    unfold secure_translate_text at hc
    cases hd : decrypt_text key enc with
    | none => rw [hd] at hc; simp at hc
    | some d =>
      rw [hd] at hc
      by_cases hne : d = ""
      · simp [hne] at hc
      · simp only [hne, if_false, reduceCtorEq, reduceIte] at hc
        cases h1 : svc src tgt d with
        | some t => rw [h1] at hc; simp at hc; exact ⟨t, hc.symm⟩
        | none =>
          rw [h1] at hc
          cases h2 : svc "auto" tgt d with
          | some t => rw [h2] at hc; simp at hc; exact ⟨t, hc.symm⟩
          | none => rw [h2] at hc; simp at hc

/-- Claim C4, witnessed at concrete inputs: on a malformed payload the
service is never called and the result is `None`; on a decryptable
payload with a service that always fails, the trace is exactly the
explicit call then the single `'auto'` retry, and the result is
`None`. -/
theorem c4_translate_failure_policy_witness :
    secure_translate_text 0 (fun _ _ _ => none)
      (Ciphertext.malformed "bad") "en" "es" = (none, []) ∧
    (secure_translate_text 0 (fun _ _ _ => none)
      (Ciphertext.token 0 "hi") "en" "es").2 =
      [("en", "es", "hi"), ("auto", "es", "hi")] ∧
    (secure_translate_text 0 (fun _ _ _ => none)
      (Ciphertext.token 0 "hi") "en" "es").1 = none := by
  have h1 := (c4_translate_failure_policy 0 (fun _ _ _ => none)
    (Ciphertext.malformed "bad") "en" "es").1 rfl
  have h2 := ((c4_translate_failure_policy 0 (fun _ _ _ => none)
    (Ciphertext.token 0 "hi") "en" "es").2.1 "hi" rfl (by decide)).2 rfl
  exact ⟨h1, h2.1, h2.2.1 rfl⟩

/-- Claim C5, counterexample: with auto-detect disabled, a detected
language (`fr`) differing from the declared one (`English`, code
`en`), the language-selection block uses the declared code but records
no mismatch flag at all: the banner and the stored detected-language
are exactly what they are when the detected language matches the
declared one — the mismatch leaves no recorded trace. -/
theorem c5_no_mismatch_flag_recorded :
    pipeline_lang_step false (some "fr") none "English" none =
      { source_lang_code := some "en", detected_lang_code := some "fr",
        banner := none, session_detected := none } ∧
    (pipeline_lang_step false (some "fr") none "English" none).banner =
      (pipeline_lang_step false (some "en") none "English" none).banner ∧
    (pipeline_lang_step false (some "fr") none "English" none).session_detected =
      (pipeline_lang_step false (some "en") none "English" none).session_detected ∧
    ("fr" : String) ≠ "en" := by
  refine ⟨by decide, rfl, rfl, by decide⟩

/-- Claim C5 as amended: when auto-detect is enabled and a language is
detected, the downstream source code is derived from the detected code
(`languages.get(get_language_name code) or code`) independently of the
declared language, and the banner and session field are set to the
detected language's name; when auto-detect is disabled, the declared
language's code is used for downstream processing, but no mismatch flag
is recorded — the banner stays absent and the stored detected-language
is left unchanged, exactly as in the matching case (the raw detected
code is still passed on to the enhancement stage). -/
theorem c5_language_policy (code : String) (guess : Option String)
    (src : String) (prev : Option String) :
    pipeline_lang_step true (some code) guess src prev =
      { source_lang_code :=
          some (pyOr (get_languages.lookup (get_language_name code)) code),
        detected_lang_code := some code,
        banner := some (get_language_name code),
        session_detected := some (get_language_name code) } ∧
    pipeline_lang_step false (some code) guess src prev =
      { source_lang_code := get_languages.lookup src,
        detected_lang_code := some code,
        banner := none,
        session_detected := prev } := by
  exact ⟨rfl, rfl⟩

/-- Claim C9, counterexample: a decryptable payload whose plaintext is
the empty string, passed with the regional code `zh-CN` and a synthesis
service that supports only English: the claim promises normalization
and an English-fallback audio handle, but the code's falsiness test
(`if not decrypted_text`) returns `None` before any synthesis is
attempted — no handle, no warning. -/
theorem c9_empty_plaintext_no_handle :
    decrypt_text 0 (Ciphertext.token 0 "") = some "" ∧
    secure_text_to_speech 0 (fun l => l == "en") "f.mp3"
      (Ciphertext.token 0 "") "zh-CN" =
      { result := none, lang_used := none, warned := false } := by
  exact ⟨rfl, rfl⟩

/-- Claim C9 as amended: for every payload that decrypts to a
non-empty string (and with English accepted by the synthesis service,
as it is by gTTS): the codes `zh-CN`/`zh-TW` are normalized to
`zh-cn`/`zh-tw`; a supported (normalized) code is synthesized as such
with no warning; an unsupported code falls back to English with a
non-fatal warning and still returns the audio handle. -/
theorem c9_tts_normalize_and_fallback (key : Nat)
    (supported : String → Bool) (fname : String) (enc : Ciphertext)
    (lang d : String) (hd : decrypt_text key enc = some d) (hne : d ≠ "")
    (hen : supported "en" = true) :
    (supported (tts_normalize lang) = true →
      secure_text_to_speech key supported fname enc lang =
        { result := some fname, lang_used := some (tts_normalize lang),
          warned := false }) ∧
    (supported (tts_normalize lang) = false →
      secure_text_to_speech key supported fname enc lang =
        { result := some fname, lang_used := some "en", warned := true }) ∧
    tts_normalize "zh-CN" = "zh-cn" ∧ tts_normalize "zh-TW" = "zh-tw" := by
  refine ⟨?_, ?_, rfl, rfl⟩
  · intro hs
    simp [secure_text_to_speech, hd, hne, hs]
  · intro hs
    simp [secure_text_to_speech, hd, hne, hs, hen]

/-- Claim C9 amended-theorem witness at concrete inputs: a key-0 token
of `"hola"` with code `zh-CN` and a service supporting only `en` is
normalized (to the unsupported `zh-cn`) and falls back to an English
audio handle with the warning shown. -/
theorem c9_tts_normalize_and_fallback_witness :
    secure_text_to_speech 0 (fun l => l == "en") "f.mp3"
      (Ciphertext.token 0 "hola") "zh-CN" =
      { result := some "f.mp3", lang_used := some "en", warned := true } := by
  exact (c9_tts_normalize_and_fallback 0 (fun l => l == "en") "f.mp3"
    (Ciphertext.token 0 "hola") "zh-CN" "hola" rfl (by decide) rfl).2.1 rfl

/-- Claim C10: when auto-detect is enabled but no language is detected
(Whisper returns none and the langdetect fallback also fails), the
language-selection block silently uses the manually selected
source-language control — whose default is the first table entry,
`English` (code `en`), and which is rendered disabled under
auto-detect — as the downstream source language; no detected-language
banner is shown and the stored detected-language is untouched. -/
theorem c10_no_detection_uses_selectbox (src : String)
    (prev : Option String) :
    pipeline_lang_step true none none src prev =
      { source_lang_code := get_languages.lookup src,
        detected_lang_code := none, banner := none,
        session_detected := prev } ∧
    source_lang_default = some "English" ∧
    get_languages.lookup "English" = some "en" ∧
    source_selectbox_disabled true = true := by
  exact ⟨rfl, rfl, rfl, rfl⟩

/-- Helper for claim C6: every reachable session state carries one of
the two recording-state strings the code ever assigns, `'stopped'` or
`'recording'` — there is no third (`'idle'`) value. -/
theorem reachable_recording_state (s : Session) (h : Reachable s) :
    s.recording_state = "stopped" ∨ s.recording_state = "recording" := by
  induction h with
  | init => exact Or.inl rfl
  | start s' hr hg ih => exact Or.inr rfl
  | stop s' hr hg ih => exact Or.inl rfl
  | reset s' hr hg ih => exact Or.inl rfl
  | record s' b hr hs ih => simpa [recordAudio] using ih
  | checkbox s' b hr ih => simpa [setAutoDetect] using ih

/-- Claim C6, counterexample: the session is created in its initial
state (the state the spec calls Idle), whose `recording_state` is
`'stopped'`; there both Start and Reset are enabled, refuting "from
Idle only Start is enabled". -/
theorem c6_initial_state_enables_reset :
    Reachable initSession ∧
    initSession.recording_state = "stopped" ∧
    startEnabled initSession = true ∧
    resetEnabled initSession = true ∧
    stopEnabled initSession = false :=
  ⟨Reachable.init, rfl, rfl, rfl, rfl⟩

/-- Claim C6 as amended: the code has exactly two reachable
recording states, `'stopped'` (also the initial state — there is no
separate Idle) and `'recording'`; from `'stopped'` both Start and
Reset are enabled and Stop is disabled; from `'recording'` only Stop
is enabled. -/
theorem c6_state_machine_guards (s : Session) (h : Reachable s) :
    (s.recording_state = "stopped" ∨ s.recording_state = "recording") ∧
    (s.recording_state = "stopped" →
      startEnabled s = true ∧ stopEnabled s = false ∧
      resetEnabled s = true) ∧
    (s.recording_state = "recording" →
      startEnabled s = false ∧ stopEnabled s = true ∧
      resetEnabled s = false) := by
  refine ⟨reachable_recording_state s h, ?_, ?_⟩
  · intro h1
    simp [startEnabled, stopEnabled, resetEnabled, h1]
  · intro h1
    simp [startEnabled, stopEnabled, resetEnabled, h1]

/-- Claim C6 amended-theorem witness: the guard characterization at
the concrete initial session state, which is reachable. -/
theorem c6_state_machine_guards_witness :
    (initSession.recording_state = "stopped" ∨
      initSession.recording_state = "recording") ∧
    (initSession.recording_state = "stopped" →
      startEnabled initSession = true ∧ stopEnabled initSession = false ∧
      resetEnabled initSession = true) ∧
    (initSession.recording_state = "recording" →
      startEnabled initSession = false ∧ stopEnabled initSession = true ∧
      resetEnabled initSession = false) :=
  c6_state_machine_guards initSession Reachable.init

/-- Claim C7, counterexample: from a stopped session holding audio and
a detected language, Reset is enabled and produces the state
`'stopped'` — not a distinct `'idle'` state; it is exactly the state a
Start followed by Stop produces, so Reset does not return the session
to an Idle state distinct from Stopped. -/
theorem c7_reset_not_to_idle :
    resetEnabled { recording_state := "stopped", audio_bytes := some [1],
                   detected_language := some "French",
                   auto_detect := true } = true ∧
    resetTransition { recording_state := "stopped", audio_bytes := some [1],
                      detected_language := some "French",
                      auto_detect := true } =
      { recording_state := "stopped", audio_bytes := none,
        detected_language := none, auto_detect := true } ∧
    (resetTransition { recording_state := "stopped", audio_bytes := some [1],
                       detected_language := some "French",
                       auto_detect := true }).recording_state ≠ "idle" ∧
    resetTransition { recording_state := "stopped", audio_bytes := some [1],
                      detected_language := some "French",
                      auto_detect := true } =
      stopTransition (startTransition
        { recording_state := "stopped", audio_bytes := some [1],
          detected_language := some "French", auto_detect := true }) :=
  ⟨rfl, rfl, by decide, rfl⟩

/-- Claim C7 as amended: for every session state, the Start transition
enters `'recording'` and clears the prior `audio_bytes` and
`detected_language`, and the Reset transition sets the state to
`'stopped'` (the same value the Stop transition assigns — the code has
no separate idle state) and unconditionally clears `audio_bytes` and
`detected_language`; nothing else changes. -/
theorem c7_start_reset_transitions (s : Session) :
    (startEnabled s = true →
      startTransition s =
        { recording_state := "recording", audio_bytes := none,
          detected_language := none, auto_detect := s.auto_detect }) ∧
    (resetEnabled s = true →
      resetTransition s =
        { recording_state := "stopped", audio_bytes := none,
          detected_language := none, auto_detect := s.auto_detect }) ∧
    resetTransition s =
      { recording_state := "stopped", audio_bytes := none,
        detected_language := none, auto_detect := s.auto_detect } :=
  ⟨fun _ => rfl, fun _ => rfl, rfl⟩

/-- Claim C7 amended-theorem witness at concrete session states:
Start from the initial state, and Reset from a stopped state holding
audio and a detection. -/
theorem c7_start_reset_transitions_witness :
    startTransition initSession =
      { recording_state := "recording", audio_bytes := none,
        detected_language := none, auto_detect := true } ∧
    resetTransition { recording_state := "stopped", audio_bytes := some [7],
                      detected_language := some "German",
                      auto_detect := false } =
      { recording_state := "stopped", audio_bytes := none,
        detected_language := none, auto_detect := false } :=
  ⟨(c7_start_reset_transitions initSession).1 rfl,
   (c7_start_reset_transitions
     { recording_state := "stopped", audio_bytes := some [7],
       detected_language := some "German", auto_detect := false }).2.2⟩

end Translito
